import Mathlib

/-!
Verification of the multi-tenant appointment-booking backend (AMS-BAckend).

The definitions below are a shallow embedding of the repository's effective
request handlers.  The monolithic controllers are the authority; where a
controller file assigns the same export twice, the later assignment wins
(JavaScript module semantics), so the embedded function follows the later
copy.  Document ids are modelled as `Nat`, timestamps (dates, instants) as
`Int` epoch values, prices as `ℚ`, and the document store as lists of
records.  Fallible handlers return a `Resp` value alongside the updated
store.
-/

namespace AMS

/-- Principal roles (middleware/auth.js, route guards). -/
inductive Role where
  | admin
  | tenant
  | service_provider
  | customer
deriving DecidableEq, Repr

/-- Booking status enum (bookingSchema.status in models/Booking.js). -/
inductive BookingStatus where
  | pending
  | confirmed
  | in_progress
  | completed
  | cancelled
  | no_show
deriving DecidableEq, Repr

/-- HTTP-style handler outcome: `ok code data` or `error code message`. -/
inductive Resp (α : Type) where
  | ok (code : Nat) (data : α)
  | error (code : Nat) (msg : String)
deriving DecidableEq, Repr

/-- JS `n.toString().padStart(2, '0')` for a natural number. -/
def pad2 (n : Nat) : String :=
  if n < 10 then "0" ++ toString n else toString n

/-- The booking schema's time pattern `^([0-1]?[0-9]|2[0-3]):[0-5][0-9]$`
on an exploded character list. -/
def hhmmChars : List Char → Bool
  | [h1, c, m1, m2] =>
      h1.isDigit && (c == ':') && ('0' ≤ m1 && m1 ≤ '5') && m2.isDigit
  | [h1, h2, c, m1, m2] =>
      (((h1 == '0' || h1 == '1') && h2.isDigit)
        || ((h1 == '2') && ('0' ≤ h2 && h2 ≤ '3')))
      && (c == ':') && ('0' ≤ m1 && m1 ≤ '5') && m2.isDigit
  | _ => false

/-- The `match` validator for the HH:MM pattern on startTime/endTime
(models/Booking.js) and the route-level startTime check (routes/booking.js). -/
def matchesHHMM (s : String) : Bool := hhmmChars s.data

/-- Split a character list at every colon, as JS `split(':')` does. -/
def splitColonAux (cur : List Char) (acc : List (List Char)) : List Char → List (List Char)
  | [] => acc ++ [cur]
  | c :: rest =>
      if c = ':' then splitColonAux [] (acc ++ [cur]) rest
      else splitColonAux (cur ++ [c]) acc rest

/-- JS `s.split(':')` on the exploded string. -/
def splitColon (l : List Char) : List (List Char) := splitColonAux [] [] l

/-- JS `Number(part)` for a decimal digit string: `none` models `NaN`. -/
def charsToNat? (l : List Char) : Option Nat :=
  if l ≠ [] ∧ l.all Char.isDigit then
    some (l.foldl (fun n c => n * 10 + (c.toNat - 48)) 0)
  else none

/-- JS `startTime.split(':').map(Number)` destructured to `[hours, minutes]`
(bookingController.createBooking).  Yields `none` when the string does not
split into two numeric parts (in the source this produces `NaN` components,
which end in the same schema validation failure). -/
def parseHHMM (s : String) : Option (Nat × Nat) :=
  match splitColon s.data with
  | [h, m] =>
      match charsToNat? h, charsToNat? m with
      | some hh, some mm => some (hh, mm)
      | _, _ => none
  | _ => none

/-- The endTime computation of bookingController.createBooking:
total minutes, `Math.floor(endMinutes / 60)` (no mod-24 reduction),
`endMinutes % 60`, both zero-padded. -/
def computeEndTime (startTime : String) (duration : Nat) : Option String :=
  (parseHHMM startTime).map fun p =>
    let endMinutes := p.1 * 60 + p.2 + duration
    pad2 (endMinutes / 60) ++ ":" ++ pad2 (endMinutes % 60)

/-- Discount type enum of the service schema's pricing.discounts. -/
inductive DiscountType where
  | percentage
  | fixed
deriving DecidableEq, Repr

/-- One entry of `service.pricing.discounts`. -/
structure Discount where
  dtype : DiscountType
  value : ℚ
  isActive : Bool
  validFrom : Option Int
  validTo : Option Int
deriving DecidableEq, Repr

/-- The `service.pricing` sub-document (models Service schema in ServiceProvider.js file). -/
structure ServicePricing where
  basePrice : ℚ
  currency : String
  discounts : List Discount
deriving DecidableEq, Repr

/-- JS `Math.round(price * 100) / 100` (round half toward +∞). -/
def jsRound2 (q : ℚ) : ℚ := (⌊q * 100 + 1 / 2⌋ : ℚ) / 100

/-- The active-discount filter of the `finalPrice` virtual:
`discount.isActive && (!validFrom || validFrom <= now) && (!validTo || validTo >= now)`. -/
def discountActiveAt (now : Int) (d : Discount) : Bool :=
  d.isActive
    && (match d.validFrom with | none => true | some f => decide (f ≤ now))
    && (match d.validTo with | none => true | some t => decide (now ≤ t))

/-- One step of the `finalPrice` virtual's forEach over active discounts. -/
def applyDiscount (price : ℚ) (d : Discount) : ℚ :=
  match d.dtype with
  | .percentage => price * (1 - d.value / 100)
  | .fixed => max 0 (price - d.value)

/-- The `finalPrice` virtual of the service schema: apply active discounts
to basePrice in list order, then round to 2 decimal places. -/
def finalPrice (now : Int) (p : ServicePricing) : ℚ :=
  jsRound2 (((p.discounts.filter (discountActiveAt now)).foldl applyDiscount p.basePrice))

/-- A Service document (the fields the handlers under scrutiny touch). -/
structure Service where
  id : Nat
  tenant : Nat
  name : String
  description : String
  category : String
  duration : Nat
  pricing : ServicePricing
  providers : List Nat
  isActive : Bool
deriving DecidableEq, Repr

/-- A booking's pricing snapshot as written by createBooking. -/
structure BookingPricing where
  basePrice : ℚ
  finalPrice : ℚ
  currency : String
deriving DecidableEq, Repr

/-- The `booking.feedback` sub-document. -/
structure FeedbackRec where
  rating : Nat
  comment : Option String
  submittedAt : Int
deriving DecidableEq, Repr

/-- The `booking.reschedule` sub-document. -/
structure RescheduleRec where
  previousDate : Int
  previousStartTime : String
  rescheduleCount : Nat
  rescheduledBy : Nat
  rescheduledAt : Int
  reason : Option String
deriving DecidableEq, Repr

/-- The `booking.cancellation` sub-document. -/
structure CancellationRec where
  cancelledBy : Nat
  cancelledAt : Int
  reason : Option String
deriving DecidableEq, Repr

/-- A Booking document (models/Booking.js). -/
structure Booking where
  id : Nat
  tenant : Nat
  customer : Nat
  service : Nat
  provider : Nat
  appointmentDate : Int
  startTime : String
  endTime : String
  duration : Nat
  status : BookingStatus
  pricing : BookingPricing
  feedback : Option FeedbackRec
  cancellation : Option CancellationRec
  reschedule : Option RescheduleRec
deriving DecidableEq, Repr

/-- A principal document in the User or ServiceProvider collection.
`role` is optional because Tenant documents carry no role field;
`isActive` is optional to model the middleware's
`user.isActive !== undefined` guard. -/
structure PrincipalRec where
  id : Nat
  role : Option Role
  tenant : Option Nat
  isActive : Option Bool
deriving DecidableEq, Repr

/-- A Tenant (business-owner) document: id plus the soft-delete flag
(`isActive` defaults to true in the schema, hence always present). -/
structure TenantRec where
  id : Nat
  isActive : Bool
deriving DecidableEq, Repr

/-- The document store: the collections the embedded handlers touch. -/
structure DB where
  tenantAccounts : List TenantRec
  users : List PrincipalRec
  serviceProviders : List PrincipalRec
  services : List Service
  bookings : List Booking
deriving DecidableEq, Repr

/-- A mongoose `maxlength` validator on an optional string field:
absent passes, present must be within the bound. -/
def maxLen (n : Nat) (s : Option String) : Bool :=
  match s with
  | some c => decide (c.length ≤ n)
  | none => true

/-- Schema validation run by `Booking.create` / `booking.save()`:
time pattern on startTime and endTime, duration at least 5,
feedback rating within 1..5 and feedback comment at most 1000
characters.  (Required references and the status enum hold by typing in
this embedding.) -/
def validBooking (b : Booking) : Bool :=
  matchesHHMM b.startTime && matchesHHMM b.endTime && decide (5 ≤ b.duration)
    && (match b.feedback with
        | some f =>
            decide (1 ≤ f.rating) && decide (f.rating ≤ 5) && maxLen 1000 f.comment
        | none => true)

/-- The service schema's category enum (also checked at the route). -/
def categoryEnum : List String :=
  ["beauty", "wellness", "healthcare", "fitness", "consulting",
   "automotive", "home_services", "other"]

/-- The service schema's pricing.currency enum. -/
def currencyEnum : List String := ["USD", "EUR", "GBP", "INR", "CAD", "AUD"]

/-- Schema validation for a Service document (`Service.create`,
`findByIdAndUpdate` with runValidators): name at most 100 characters,
description at most 1000, category and currency from their enums,
duration within [5, 480], non-negative base price. -/
def validService (s : Service) : Bool :=
  decide (s.name.length ≤ 100) && decide (s.description.length ≤ 1000)
    && categoryEnum.contains s.category
    && decide (5 ≤ s.duration) && decide (s.duration ≤ 480)
    && decide (0 ≤ s.pricing.basePrice)
    && currencyEnum.contains s.pricing.currency

/-- Replace the booking with the given id (mongoose `save` of a fetched doc). -/
def DB.saveBooking (db : DB) (b : Booking) : DB :=
  { db with bookings := db.bookings.map fun x => if x.id == b.id then b else x }

/-- Replace the service with the given id. -/
def DB.saveService (db : DB) (s : Service) : DB :=
  { db with services := db.services.map fun x => if x.id == s.id then s else x }

/-- The `authorize(...roles)` middleware: 403 unless the caller's role is listed. -/
def authorize (allowed : List Role) (r : Role) : Bool := allowed.contains r

/-- Request body for POST /api/bookings after express-validator has
checked it (`customer`, `service`, `provider` are required ids;
`startTime` must match the HH:MM pattern; `endTime` is optional and
unvalidated at the route level; a client-supplied `status` passes through
to `Booking.create`). -/
structure BookingBody where
  customer : Nat
  service : Nat
  provider : Nat
  appointmentDate : Int
  startTime : String
  endTime : Option String
  status : Option BookingStatus
deriving DecidableEq, Repr

/-- The route-level createBookingValidation (routes/booking.js): of the
modelled fields only the startTime pattern is a real constraint (ids and
the ISO date hold by typing). -/
def routeValidBookingBody (b : BookingBody) : Bool := matchesHHMM b.startTime

/-- bookingController.createBooking.  Mirrors the effective source:
validation errors first; `req.body.tenant = req.tenantId`; a customer
caller books for themselves; the service is fetched by
`Service.findById(req.body.service)` with NO tenant filter, and a miss
returns status 400 "Service not found"; duration and the pricing snapshot
(base price, `finalPrice` virtual at the current instant, currency) are
copied from the service; endTime is computed from startTime + duration
when absent (and duration is nonzero); finally `Booking.create` runs the
schema validators and inserts. -/
def createBooking (db : DB) (tenantId : Nat) (userRole : Role) (userId : Nat)
    (body : BookingBody) (newId : Nat) (now : Int) : DB × Resp Booking :=
  if ¬ routeValidBookingBody body then (db, .error 400 "Validation failed")
  else
    let customer := if userRole = .customer then userId else body.customer
    match db.services.find? (fun s => s.id == body.service) with
    | none => (db, .error 400 "Service not found")
    | some service =>
      let pricing : BookingPricing :=
        { basePrice := service.pricing.basePrice
          finalPrice := finalPrice now service.pricing
          currency := service.pricing.currency }
      let endTime : Option String :=
        match body.endTime with
        | some e => some e
        | none =>
            if service.duration ≠ 0 then computeEndTime body.startTime service.duration
            else none
      match endTime with
      | none => (db, .error 400 "Booking validation failed")
      | some e =>
        let b : Booking :=
          { id := newId, tenant := tenantId, customer := customer
            service := body.service, provider := body.provider
            appointmentDate := body.appointmentDate, startTime := body.startTime
            endTime := e, duration := service.duration
            status := body.status.getD .pending, pricing := pricing
            feedback := none, cancellation := none, reschedule := none }
        if validBooking b then ({ db with bookings := db.bookings ++ [b] }, .ok 201 b)
        else (db, .error 400 "Booking validation failed")

/-- bookingController.updateBookingStatus: fetch by id AND tenant
(`Booking.findOne({_id, tenant: req.tenantId})`), 404 on miss, then an
unconditional `booking.status = status; booking.save()` — no
transition-graph validation of any kind. -/
def updateBookingStatus (db : DB) (tenantId : Nat) (bookingId : Nat)
    (newStatus : BookingStatus) : DB × Resp Booking :=
  match db.bookings.find? (fun b => b.id == bookingId && b.tenant == tenantId) with
  | none => (db, .error 404 "Booking not found")
  | some b =>
      let b' := { b with status := newStatus }
      if validBooking b' then (db.saveBooking b', .ok 200 b')
      else (db, .error 400 "Booking validation failed")

/-- bookingController.rescheduleBooking: fetch by id AND tenant, 404 on
miss; overwrite `booking.reschedule` with the PREVIOUS date/time, a
counter of `(booking.reschedule?.rescheduleCount || 0) + 1`, the actor,
the instant and the reason; then overwrite appointmentDate/startTime and
save.  endTime and duration are not touched. -/
def rescheduleBooking (db : DB) (tenantId : Nat) (bookingId : Nat)
    (newDate : Int) (newTime : String) (actorId : Nat) (reason : Option String)
    (now : Int) : DB × Resp Booking :=
  match db.bookings.find? (fun b => b.id == bookingId && b.tenant == tenantId) with
  | none => (db, .error 404 "Booking not found")
  | some b =>
      let prevCount := match b.reschedule with
        | some r => r.rescheduleCount
        | none => 0
      let b' := { b with
        reschedule := some
          { previousDate := b.appointmentDate
            previousStartTime := b.startTime
            rescheduleCount := prevCount + 1
            rescheduledBy := actorId
            rescheduledAt := now
            reason := reason }
        appointmentDate := newDate
        startTime := newTime }
      if validBooking b' then (db.saveBooking b', .ok 200 b')
      else (db, .error 400 "Booking validation failed")

/-- bookingController.submitFeedback: the booking is fetched with
`Booking.findOne({_id, customer: req.user._id, tenant: req.tenantId})`,
so a booking whose customer is not the caller yields 404 "Booking not
found" (NOT 403); then 400 unless status is completed; then the feedback
sub-document is overwritten unconditionally (no resubmission check). -/
def submitFeedback (db : DB) (tenantId : Nat) (callerId : Nat) (bookingId : Nat)
    (rating : Nat) (comment : Option String) (now : Int) : DB × Resp Booking :=
  match db.bookings.find? (fun b =>
      b.id == bookingId && b.customer == callerId && b.tenant == tenantId) with
  | none => (db, .error 404 "Booking not found")
  | some b =>
      if b.status ≠ .completed then
        (db, .error 400 "Can only provide feedback for completed bookings")
      else
        let fb : FeedbackRec := { rating := rating, comment := comment, submittedAt := now }
        let b' := { b with feedback := some fb }
        if validBooking b' then (db.saveBooking b', .ok 200 b')
        else (db, .error 400 "Booking validation failed")

/-- Request body for POST /api/services after field extraction. -/
structure ServiceBody where
  name : String
  description : String
  category : String
  duration : Nat
  pricing : ServicePricing
deriving DecidableEq, Repr

/-- JS `.trim().notEmpty()`: the string keeps at least one character
after trimming, i.e. not every character is whitespace. -/
def trimNonempty (s : String) : Bool := !(s.data.all Char.isWhitespace)

/-- The route-level createServiceValidation (routes/service.js):
non-empty trimmed name and description, category from the fixed list,
duration within [5, 480], non-negative base price. -/
def routeValidServiceBody (b : ServiceBody) : Bool :=
  trimNonempty b.name && trimNonempty b.description
    && categoryEnum.contains b.category
    && decide (5 ≤ b.duration) && decide (b.duration ≤ 480)
    && decide (0 ≤ b.pricing.basePrice)

/-- serviceController.createService (the effective, later copy): 403
unless the caller's role is tenant; then express-validator; then
`req.body.tenant = req.user.tenant?._id || req.user.tenant || req.tenantId
|| req.user._id`, `req.body.providers = []`, and `Service.create` (whose
schema validators the route validation already implies for the modelled
fields). -/
def createService (db : DB) (userRole : Role) (userTenant : Option Nat)
    (tenantId : Option Nat) (userId : Nat) (body : ServiceBody) (newId : Nat) :
    DB × Resp Service :=
  if userRole ≠ .tenant then (db, .error 403 "Only tenants can create services")
  else if ¬ routeValidServiceBody body then (db, .error 400 "Validation failed")
  else
    let s : Service :=
      { id := newId
        tenant := (userTenant <|> tenantId).getD userId
        name := body.name, description := body.description
        category := body.category, duration := body.duration
        pricing := body.pricing, providers := [], isActive := true }
    if validService s then ({ db with services := db.services ++ [s] }, .ok 201 s)
    else (db, .error 400 "Service validation failed")

/-- POST /api/services as routed: `authorize('tenant', 'service_provider')`
in front of the controller. -/
def createServiceRoute (db : DB) (userRole : Role) (userTenant : Option Nat)
    (tenantId : Option Nat) (userId : Nat) (body : ServiceBody) (newId : Nat) :
    DB × Resp Service :=
  if ¬ authorize [Role.tenant, Role.service_provider] userRole then
    (db, .error 403 "User role is not authorized to access this route")
  else createService db userRole userTenant tenantId userId body newId

/-- Partial update body for PUT /api/services/:id (`$set` of the supplied
fields, as `findByIdAndUpdate(id, req.body)` does). -/
structure ServiceUpdateBody where
  name : Option String
  description : Option String
  duration : Option Nat
  pricing : Option ServicePricing
  isActive : Option Bool
deriving DecidableEq, Repr

/-- Apply the supplied fields of an update body to a service document. -/
def applyServiceUpdate (s : Service) (u : ServiceUpdateBody) : Service :=
  { s with
    name := u.name.getD s.name
    description := u.description.getD s.description
    duration := u.duration.getD s.duration
    pricing := u.pricing.getD s.pricing
    isActive := u.isActive.getD s.isActive }

/-- serviceController.updateService (the effective, later copy): 403
unless role is tenant; fetch with `{_id, tenant: req.user._id}`, 404 on
miss; then `findByIdAndUpdate(id, req.body, {runValidators: true})`.
Bookings are never touched. -/
def updateService (db : DB) (userRole : Role) (userId : Nat) (serviceId : Nat)
    (body : ServiceUpdateBody) : DB × Resp Service :=
  if userRole ≠ .tenant then (db, .error 403 "Only tenants can update services")
  else
    match db.services.find? (fun s => s.id == serviceId && s.tenant == userId) with
    | none => (db, .error 404 "Service not found or unauthorized")
    | some s =>
        let s' := applyServiceUpdate s body
        if validService s' then (db.saveService s', .ok 200 s')
        else (db, .error 400 "Service validation failed")

/-- serviceController.deleteService (the effective, later copy): 403
unless role is tenant; fetch with `{_id, tenant: req.user._id}`, 404 on
miss; soft delete by `service.isActive = false; service.save()`. -/
def deleteService (db : DB) (userRole : Role) (userId : Nat) (serviceId : Nat) :
    DB × Resp Unit :=
  if userRole ≠ .tenant then (db, .error 403 "Only tenants can delete services")
  else
    match db.services.find? (fun s => s.id == serviceId && s.tenant == userId) with
    | none => (db, .error 404 "Service not found or unauthorized")
    | some s => (db.saveService { s with isActive := false }, .ok 200 ())

/-- serviceController.unselectServices: 403 unless the caller is a
service_provider, then `Service.updateMany({_id: {$in: serviceIds}},
{$pull: {providers: req.user._id}})` — NO tenant filter on the service
set, so the pull applies to services of any tenant. -/
def unselectServices (db : DB) (userRole : Role) (userId : Nat)
    (serviceIds : List Nat) : DB × Resp Unit :=
  if userRole ≠ .service_provider then
    (db, .error 403 "Only service providers can unselect services")
  else
    ({ db with services := db.services.map fun s =>
        if serviceIds.contains s.id then
          { s with providers := s.providers.filter (fun p => p ≠ userId) }
        else s },
     .ok 200 ())

/-- tenantController.deleteTenant: `Tenant.findById` (no scope filter),
404 on miss, soft delete by `tenant.isActive = false; tenant.save()`. -/
def deleteTenant (db : DB) (tid : Nat) : DB × Resp Unit :=
  match db.tenantAccounts.find? (fun t => t.id == tid) with
  | none => (db, .error 404 "Tenant not found")
  | some _ =>
      ({ db with tenantAccounts := db.tenantAccounts.map fun t =>
          if t.id == tid then { t with isActive := false } else t },
       .ok 200 ())

/-- userController.deleteUser: `User.findById`, 404 on miss, soft delete
by `user.isActive = false; user.save()`. -/
def deleteUser (db : DB) (uid : Nat) : DB × Resp Unit :=
  match db.users.find? (fun u => u.id == uid) with
  | none => (db, .error 404 "User not found")
  | some _ =>
      ({ db with users := db.users.map fun u =>
          if u.id == uid then { u with isActive := some false } else u },
       .ok 200 ())

/-- Lookup by document id over a principal collection (mongoose findById). -/
def findById (l : List PrincipalRec) (i : Nat) : Option PrincipalRec :=
  l.find? (fun u => u.id == i)

/-- The middleware's sequential principal lookup (middleware/auth.js,
protect): User collection first, then ServiceProvider, then Tenant; a hit
in the Tenant collection gets `role = 'tenant'` patched in (Tenant
documents carry no role or tenant field, and their isActive flag is
always present). -/
def lookupPrincipal (db : DB) (i : Nat) : Option PrincipalRec :=
  match findById db.users i with
  | some u => some u
  | none =>
      match findById db.serviceProviders i with
      | some u => some u
      | none =>
          (db.tenantAccounts.find? (fun t => t.id == i)).map fun t =>
            { id := t.id, role := some .tenant, tenant := none
              isActive := some t.isActive }

/-- The lookup order the specification text states: tenant-owner store
first, then service-provider, then generic-user.  Modelled from the spec
for comparison with `lookupPrincipal`, which follows the source order. -/
def lookupPrincipalSpecOrder (db : DB) (i : Nat) : Option PrincipalRec :=
  match (db.tenantAccounts.find? (fun t => t.id == i)).map (fun t =>
      ({ id := t.id, role := some .tenant, tenant := none
         isActive := some t.isActive } : PrincipalRec)) with
  | some u => some u
  | none =>
      match findById db.serviceProviders i with
      | some u => some u
      | none => findById db.users i

/-- Result of the protect middleware: either the resolved principal and
the derived `req.tenantId`, or a 401. -/
inductive AuthResult where
  | ok (user : PrincipalRec) (tenantId : Option Nat)
  | err401 (msg : String)
deriving DecidableEq, Repr

/-- The post-verification body of the protect middleware
(middleware/auth.js): sequential lookup; 401 "No user found with this
token" on total miss; 401 "User account is deactivated" when
`user.isActive !== undefined && !user.isActive`; 401 "Tenant account is
inactive" when `user.role !== 'admin' && user.tenant &&
!user.tenant.isActive` (the tenant reference populated against the Tenant
collection); otherwise success with
`req.tenantId = user.tenant?._id || user.tenant`. -/
def protect (db : DB) (subjectId : Nat) : AuthResult :=
  match lookupPrincipal db subjectId with
  | none => .err401 "No user found with this token"
  | some u =>
      if u.isActive = some false then .err401 "User account is deactivated"
      else
        match u.tenant.bind (fun tid => db.tenantAccounts.find? (fun t => t.id == tid)) with
        | some t =>
            if u.role ≠ some .admin ∧ t.isActive = false then
              .err401 "Tenant account is inactive"
            else .ok u (some t.id)
        | none => .ok u none

/-! ### Helper lemmas -/

theorem data_append (a b : String) : (a ++ b).data = a.data ++ b.data := by
  cases a
  cases b
  rfl

set_option maxHeartbeats 1000000 in
theorem hhmm_rejects_overflow_hours : ∀ k : Fin 8, ∀ em : Fin 60,
    matchesHHMM (pad2 (24 + k.val) ++ ":" ++ pad2 em.val) = false := by decide

/-- validBooking never looks at the status field. -/
theorem validBooking_status (b : Booking) (s : BookingStatus) :
    validBooking { b with status := s } = validBooking b := rfl

/-- validBooking never looks at appointmentDate or the reschedule record,
so a reschedule's save only re-checks the new startTime. -/
theorem validBooking_reschedule (b : Booking) (nd : Int) (nt : String)
    (r : Option RescheduleRec) :
    validBooking { b with appointmentDate := nd, startTime := nt, reschedule := r }
      = (matchesHHMM nt && matchesHHMM b.endTime && decide (5 ≤ b.duration)
          && (match b.feedback with
              | some f =>
                  decide (1 ≤ f.rating) && decide (f.rating ≤ 5) && maxLen 1000 f.comment
              | none => true)) := rfl

/-- Mapping a function that fixes every element of a list is the identity. -/
theorem map_id_of_fixes {α : Type} (l : List α) (f : α → α)
    (h : ∀ x ∈ l, f x = x) : l.map f = l := by
  induction l with
  | nil => rfl
  | cons a t ih =>
      have ha := h a (List.mem_cons_self a t)
      have ht := ih fun x hx => h x (List.mem_cons_of_mem a hx)
      simp [List.map_cons, ha, ht]

/-! ### Fixtures and theorem for claim C4 -/

/-- C4 scenario service: duration 60, basePrice 50, no discounts. -/
def svcC4 : Service :=
  { id := 5, tenant := 1, name := "cut", description := "haircut", category := "beauty"
    duration := 60
    pricing := { basePrice := 50, currency := "USD", discounts := [] }
    providers := [3], isActive := true }

/-- C4 scenario store. -/
def dbC4 : DB :=
  { tenantAccounts := [{ id := 1, isActive := true }]
    users := [{ id := 9, role := some .customer, tenant := some 1, isActive := some true }]
    serviceProviders := [{ id := 3, role := some .service_provider, tenant := some 1, isActive := some true }]
    services := [svcC4], bookings := [] }

/-- C4 scenario request: customer books at 10:00 with no endTime. -/
def bodyC4 : BookingBody :=
  { customer := 9, service := 5, provider := 3, appointmentDate := 100
    startTime := "10:00", endTime := none, status := none }

/-- The booking the C4 scenario must create (the pricing snapshot holds
the service's `finalPrice` virtual evaluated at creation time). -/
def bkC4 : Booking :=
  { id := 100, tenant := 1, customer := 9, service := 5, provider := 3
    appointmentDate := 100, startTime := "10:00", endTime := "11:00"
    duration := 60, status := .pending
    pricing := { basePrice := 50, finalPrice := finalPrice 0 svcC4.pricing, currency := "USD" }
    feedback := none, cancellation := none, reschedule := none }

/-- C4: when endTime is omitted, createBooking records
`endTime = pad2 ((60*HH + MM + d) / 60) ++ ":" ++ pad2 ((60*HH + MM + d) % 60)`
with no mod-24 reduction of the hour, takes the status from the body
(default pending) and snapshots the service's current final price; in the
concrete scenario a 60-minute, basePrice-50 service booked at "10:00"
yields endTime "11:00", status pending and finalPrice 50. -/
theorem C4_endTime_computation :
    (∀ (db : DB) (tenantId : Nat) (userRole : Role) (userId : Nat)
       (body : BookingBody) (newId : Nat) (now : Int) (s : Service)
       (hh mm : Nat) (db' : DB) (b : Booking),
       db.services.find? (fun x => x.id == body.service) = some s →
       body.endTime = none →
       s.duration ≠ 0 →
       parseHHMM body.startTime = some (hh, mm) →
       createBooking db tenantId userRole userId body newId now = (db', Resp.ok 201 b) →
       b.endTime = pad2 ((hh * 60 + mm + s.duration) / 60) ++ ":"
           ++ pad2 ((hh * 60 + mm + s.duration) % 60)
         ∧ b.status = body.status.getD .pending
         ∧ b.pricing.finalPrice = finalPrice now s.pricing)
    ∧ createBooking dbC4 1 .customer 9 bodyC4 100 0
        = ({ dbC4 with bookings := [bkC4] }, Resp.ok 201 bkC4)
    ∧ bkC4.endTime = "11:00" ∧ bkC4.status = .pending
    ∧ bkC4.pricing.finalPrice = 50 := by
  refine ⟨?_, rfl, rfl, rfl, ?_⟩
  · intro db tenantId userRole userId body newId now s hh mm db' b
      hfind hend hdur hparse h
    by_cases hroute : routeValidBookingBody body = true
    · simp only [createBooking, hroute, not_true_eq_false, if_false, hfind, hend, hdur,
        ne_eq, not_false_eq_true, if_true, computeEndTime, hparse, Option.map_some'] at h
      split at h <;> split at h <;>
        (rw [Prod.mk.injEq] at h
         obtain ⟨-, h2⟩ := h
         first
           | (injection h2 with _ hb
              subst hb
              exact ⟨rfl, rfl, rfl⟩)
           | exact absurd h2 (by simp))
    · simp only [createBooking, hroute, not_false_eq_true, if_true] at h
      rw [Prod.mk.injEq] at h
      obtain ⟨-, h2⟩ := h
      exact absurd h2 (by simp)
  · show jsRound2 _ = 50
    norm_num [jsRound2, svcC4, discountActiveAt, applyDiscount]

/-- Witness for C4: the generic conjunct applied to the concrete scenario. -/
theorem C4_endTime_computation_witness :
    bkC4.endTime = pad2 ((10 * 60 + 0 + svcC4.duration) / 60) ++ ":"
        ++ pad2 ((10 * 60 + 0 + svcC4.duration) % 60)
      ∧ bkC4.status = bodyC4.status.getD .pending
      ∧ bkC4.pricing.finalPrice = finalPrice 0 svcC4.pricing :=
  C4_endTime_computation.1 dbC4 1 .customer 9 bodyC4 100 0 svcC4 10 0
    { dbC4 with bookings := [bkC4] } bkC4 rfl rfl (by decide) rfl
    C4_endTime_computation.2.1

/-! ### Fixtures and theorem for claim C10 -/

/-- C10: an endTime computed past midnight has an hour field of 24 or
more, fails the schema's HH:MM pattern, and the request ends in a
validation error with no booking persisted — no wraparound to the next
day. -/
theorem C10_midnight_overflow_rejected :
    ∀ (db : DB) (tenantId : Nat) (userRole : Role) (userId : Nat)
      (body : BookingBody) (newId : Nat) (now : Int) (s : Service) (hh mm : Nat),
      db.services.find? (fun x => x.id == body.service) = some s →
      body.endTime = none →
      routeValidBookingBody body = true →
      parseHHMM body.startTime = some (hh, mm) →
      hh ≤ 23 → mm ≤ 59 →
      5 ≤ s.duration → s.duration ≤ 480 →
      1440 ≤ hh * 60 + mm + s.duration →
      createBooking db tenantId userRole userId body newId now
        = (db, Resp.error 400 "Booking validation failed") := by
  intro db tenantId userRole userId body newId now s hh mm
    hfind hend hroute hparse hhh hmm hd5 hd480 hT
  have hdur : s.duration ≠ 0 := by omega
  have hkey : matchesHHMM (pad2 ((hh * 60 + mm + s.duration) / 60) ++ ":"
      ++ pad2 ((hh * 60 + mm + s.duration) % 60)) = false := by
    have h1 : (hh * 60 + mm + s.duration) / 60
        = 24 + ((hh * 60 + mm + s.duration) / 60 - 24) := by omega
    have h2 := hhmm_rejects_overflow_hours
      ⟨(hh * 60 + mm + s.duration) / 60 - 24, by omega⟩
      ⟨(hh * 60 + mm + s.duration) % 60, by omega⟩
    rw [h1]
    exact h2
  simp only [createBooking, hroute, not_true_eq_false, if_false, hfind, hend,
    ne_eq, hdur, not_false_eq_true, if_true, computeEndTime, hparse, Option.map_some']
  split <;> split <;>
    first
      | rfl
      | (rename_i hv
         simp only [validBooking, hkey, Bool.and_false, Bool.false_and,
           Bool.false_eq_true] at hv)

/-- C10 witness service: 60 minutes long. -/
def svcC10 : Service :=
  { id := 6, tenant := 1, name := "late", description := "late slot", category := "other"
    duration := 60
    pricing := { basePrice := 20, currency := "USD", discounts := [] }
    providers := [3], isActive := true }

/-- C10 witness store. -/
def dbC10 : DB :=
  { tenantAccounts := [{ id := 1, isActive := true }]
    users := [], serviceProviders := [], services := [svcC10], bookings := [] }

/-- C10 witness request: 23:30 start against a 60-minute service. -/
def bodyC10 : BookingBody :=
  { customer := 9, service := 6, provider := 3, appointmentDate := 100
    startTime := "23:30", endTime := none, status := none }

/-- Witness for C10: booking at 23:30 for 60 minutes is rejected. -/
theorem C10_midnight_overflow_rejected_witness :
    createBooking dbC10 1 .customer 9 bodyC10 100 0
      = (dbC10, Resp.error 400 "Booking validation failed") :=
  C10_midnight_overflow_rejected dbC10 1 .customer 9 bodyC10 100 0 svcC10 23 30
    rfl rfl (by decide) rfl (by decide) (by decide) (by decide) (by decide) (by decide)

/-! ### Fixtures and theorem for claim C1 -/

/-- C1: a service that belongs to tenant 2 while the caller's resolved
scope is tenant 1. -/
def svcC1 : Service :=
  { id := 5, tenant := 2, name := "other-tenant cut", description := "x", category := "beauty"
    duration := 30
    pricing := { basePrice := 150, currency := "USD", discounts := [] }
    providers := [7, 9], isActive := true }

/-- C1 store: only tenant 2 owns a service. -/
def dbC1 : DB :=
  { tenantAccounts := [{ id := 1, isActive := true }, { id := 2, isActive := true }]
    users := [{ id := 9, role := some .customer, tenant := some 1, isActive := some true }]
    serviceProviders := [], services := [svcC1], bookings := [] }

/-- C1 request: a tenant-1 customer books tenant 2's service. -/
def bodyC1 : BookingBody :=
  { customer := 9, service := 5, provider := 3, appointmentDate := 100
    startTime := "10:00", endTime := none, status := none }

/-- The booking createBooking actually persists for the C1 request:
filed under tenant 1 but referencing, and priced from, tenant 2's
service. -/
def bkC1 : Booking :=
  { id := 100, tenant := 1, customer := 9, service := 5, provider := 3
    appointmentDate := 100, startTime := "10:00", endTime := "10:30"
    duration := 30, status := .pending
    pricing := { basePrice := 150, finalPrice := finalPrice 0 svcC1.pricing, currency := "USD" }
    feedback := none, cancellation := none, reschedule := none }

/-- C1: the code violates tenant isolation.  `Service.findById` carries
no tenant filter, so a cross-tenant serviceRef resolves and the booking
is created (201) with the foreign service's pricing revealed, where the
claim demands NotFound; a serviceRef that resolves nowhere yields 400,
not 404; and unselectServices pulls the caller out of another tenant's
service document (a cross-tenant write). -/
theorem C1_tenant_isolation_violated :
    svcC1.tenant = 2
      ∧ createBooking dbC1 1 .customer 9 bodyC1 100 0
          = ({ dbC1 with bookings := [bkC1] }, Resp.ok 201 bkC1)
      ∧ bkC1.pricing.basePrice = 150
      ∧ createBooking dbC1 1 .customer 9 { bodyC1 with service := 77 } 100 0
          = (dbC1, Resp.error 400 "Service not found")
      ∧ unselectServices dbC1 .service_provider 9 [5]
          = ({ dbC1 with services := [{ svcC1 with providers := [7] }] }, Resp.ok 200 ()) := by
  refine ⟨rfl, rfl, by norm_num [bkC1], rfl, ?_⟩
  rfl

/-! ### Fixtures and theorem for claim C2 -/

/-- C2 scenario service: basePrice 50. -/
def svcC2 : Service :=
  { id := 5, tenant := 1, name := "cut", description := "haircut", category := "beauty"
    duration := 60
    pricing := { basePrice := 50, currency := "USD", discounts := [] }
    providers := [3], isActive := true }

/-- C2 scenario store: tenant-owner 1 owns the service. -/
def dbC2 : DB :=
  { tenantAccounts := [{ id := 1, isActive := true }]
    users := [{ id := 9, role := some .customer, tenant := some 1, isActive := some true }]
    serviceProviders := [], services := [svcC2], bookings := [] }

/-- C2 booking request. -/
def bodyC2 : BookingBody :=
  { customer := 9, service := 5, provider := 3, appointmentDate := 100
    startTime := "10:00", endTime := none, status := none }

/-- The booking created in the C2 scenario, snapshotting price 50. -/
def bkC2 : Booking :=
  { id := 100, tenant := 1, customer := 9, service := 5, provider := 3
    appointmentDate := 100, startTime := "10:00", endTime := "11:00"
    duration := 60, status := .pending
    pricing := { basePrice := 50, finalPrice := finalPrice 0 svcC2.pricing, currency := "USD" }
    feedback := none, cancellation := none, reschedule := none }

/-- C2 service update: raise the base price to 80. -/
def updC2 : ServiceUpdateBody :=
  { name := none, description := none, duration := none
    pricing := some { basePrice := 80, currency := "USD", discounts := [] }
    isActive := none }

/-- The service document after the C2 price update. -/
def svcC2u : Service := applyServiceUpdate svcC2 updC2

/-- C2: updateService never touches the bookings collection, so a
booking's pricing snapshot survives any later service-price change; in
the concrete scenario the booking created at finalPrice 50 still shows 50
after the service's basePrice moves to 80. -/
theorem C2_booking_price_immutability :
    (∀ (db : DB) (userRole : Role) (userId serviceId : Nat) (body : ServiceUpdateBody),
       ((updateService db userRole userId serviceId body).1).bookings = db.bookings)
    ∧ createBooking dbC2 1 .customer 9 bodyC2 100 0
        = ({ dbC2 with bookings := [bkC2] }, Resp.ok 201 bkC2)
    ∧ updateService { dbC2 with bookings := [bkC2] } .tenant 1 5 updC2
        = ({ dbC2 with services := [svcC2u], bookings := [bkC2] }, Resp.ok 200 svcC2u)
    ∧ bkC2.pricing.finalPrice = 50
    ∧ svcC2u.pricing.basePrice = 80
    ∧ (80 : ℚ) ≠ 50 := by
  refine ⟨?_, rfl, rfl, ?_, rfl, by norm_num⟩
  · intro db r uid sid body
    simp only [updateService]
    split
    · rfl
    · split
      · rfl
      · split <;> rfl
  · show jsRound2 _ = 50
    norm_num [jsRound2, svcC2, discountActiveAt, applyDiscount]

/-- Witness for C2: the frame conjunct applied at the scenario store. -/
theorem C2_booking_price_immutability_witness :
    ((updateService { dbC2 with bookings := [bkC2] } .tenant 1 5 updC2).1).bookings
      = ({ dbC2 with bookings := [bkC2] } : DB).bookings :=
  C2_booking_price_immutability.1 { dbC2 with bookings := [bkC2] } .tenant 1 5 updC2

/-! ### Fixtures and theorem for claim C5 -/

/-- C5 scenario booking: pending, schema-valid fields. -/
def bkC5 : Booking :=
  { id := 100, tenant := 1, customer := 9, service := 5, provider := 3
    appointmentDate := 100, startTime := "10:00", endTime := "11:00"
    duration := 60, status := .pending
    pricing := { basePrice := 50, finalPrice := 50, currency := "USD" }
    feedback := none, cancellation := none, reschedule := none }

/-- C5 scenario store. -/
def dbC5 : DB :=
  { tenantAccounts := [{ id := 1, isActive := true }]
    users := [], serviceProviders := [], services := [], bookings := [bkC5] }

/-- C5: updateBookingStatus overwrites the status of any tenant-scoped
booking with any member of the enum, applying no transition-graph check;
in particular setting completed and then pending both succeed. -/
theorem C5_status_transitions_unrestricted :
    (∀ (db : DB) (tid bid : Nat) (s' : BookingStatus) (b : Booking),
       db.bookings.find? (fun x => x.id == bid && x.tenant == tid) = some b →
       validBooking b = true →
       updateBookingStatus db tid bid s'
         = (db.saveBooking { b with status := s' }, Resp.ok 200 { b with status := s' }))
    ∧ updateBookingStatus dbC5 1 100 .completed
        = ({ dbC5 with bookings := [{ bkC5 with status := .completed }] },
           Resp.ok 200 { bkC5 with status := .completed })
    ∧ updateBookingStatus { dbC5 with bookings := [{ bkC5 with status := .completed }] }
          1 100 .pending
        = ({ dbC5 with bookings := [{ bkC5 with status := .pending }] },
           Resp.ok 200 { bkC5 with status := .pending }) := by
  refine ⟨?_, rfl, rfl⟩
  intro db tid bid s' b hfind hvb
  simp only [updateBookingStatus, hfind, validBooking_status, hvb, if_true]

/-- Witness for C5: the generic conjunct applied at the scenario store. -/
theorem C5_status_transitions_unrestricted_witness :
    updateBookingStatus dbC5 1 100 .no_show
      = (dbC5.saveBooking { bkC5 with status := .no_show },
         Resp.ok 200 { bkC5 with status := .no_show }) :=
  C5_status_transitions_unrestricted.1 dbC5 1 100 .no_show bkC5 rfl (by decide)

/-! ### Theorem for claim C7 -/

/-- C7: a reschedule records the PREVIOUS date and startTime, increments
the reschedule counter by exactly one (from 0 when absent), overwrites
appointmentDate/startTime, and leaves endTime and duration untouched. -/
theorem C7_reschedule_roundtrip :
    ∀ (db : DB) (tid bid : Nat) (nd : Int) (nt : String) (actor : Nat)
      (reason : Option String) (now : Int) (b : Booking),
      db.bookings.find? (fun x => x.id == bid && x.tenant == tid) = some b →
      validBooking b = true →
      matchesHHMM nt = true →
      ∃ b', rescheduleBooking db tid bid nd nt actor reason now
          = (db.saveBooking b', Resp.ok 200 b')
        ∧ b'.reschedule = some
            { previousDate := b.appointmentDate
              previousStartTime := b.startTime
              rescheduleCount :=
                (match b.reschedule with | some r => r.rescheduleCount | none => 0) + 1
              rescheduledBy := actor, rescheduledAt := now, reason := reason }
        ∧ b'.appointmentDate = nd ∧ b'.startTime = nt
        ∧ b'.endTime = b.endTime ∧ b'.duration = b.duration := by
  intro db tid bid nd nt actor reason now b hfind hvb hnt
  simp only [validBooking, Bool.and_eq_true] at hvb
  obtain ⟨⟨⟨h1, h2⟩, h3⟩, h4⟩ := hvb
  refine ⟨{ b with
      reschedule := some
        { previousDate := b.appointmentDate, previousStartTime := b.startTime
          rescheduleCount :=
            (match b.reschedule with | some r => r.rescheduleCount | none => 0) + 1
          rescheduledBy := actor, rescheduledAt := now, reason := reason }
      appointmentDate := nd, startTime := nt }, ?_, rfl, rfl, rfl, rfl, rfl⟩
  have hvb' : validBooking { b with
      reschedule := some
        { previousDate := b.appointmentDate, previousStartTime := b.startTime
          rescheduleCount :=
            (match b.reschedule with | some r => r.rescheduleCount | none => 0) + 1
          rescheduledBy := actor, rescheduledAt := now, reason := reason }
      appointmentDate := nd, startTime := nt } = true := by
    simp only [validBooking, Bool.and_eq_true]
    exact ⟨⟨⟨hnt, h2⟩, h3⟩, h4⟩
  simp only [rescheduleBooking, hfind, hvb', if_true]

/-- C7 witness booking: already rescheduled twice. -/
def bkC7 : Booking :=
  { id := 100, tenant := 1, customer := 9, service := 5, provider := 3
    appointmentDate := 100, startTime := "10:00", endTime := "11:00"
    duration := 60, status := .confirmed
    pricing := { basePrice := 50, finalPrice := 50, currency := "USD" }
    feedback := none, cancellation := none
    reschedule := some
      { previousDate := 90, previousStartTime := "09:00", rescheduleCount := 2
        rescheduledBy := 3, rescheduledAt := 50, reason := none } }

/-- C7 witness store. -/
def dbC7 : DB :=
  { tenantAccounts := [{ id := 1, isActive := true }]
    users := [], serviceProviders := [], services := [], bookings := [bkC7] }

/-- Witness for C7: rescheduling the twice-rescheduled booking. -/
theorem C7_reschedule_roundtrip_witness :
    ∃ b', rescheduleBooking dbC7 1 100 200 "12:00" 3 (some "conflict") 999
        = (dbC7.saveBooking b', Resp.ok 200 b')
      ∧ b'.reschedule = some
          { previousDate := bkC7.appointmentDate
            previousStartTime := bkC7.startTime
            rescheduleCount :=
              (match bkC7.reschedule with | some r => r.rescheduleCount | none => 0) + 1
            rescheduledBy := 3, rescheduledAt := 999, reason := some "conflict" }
      ∧ b'.appointmentDate = 200 ∧ b'.startTime = "12:00"
      ∧ b'.endTime = bkC7.endTime ∧ b'.duration = bkC7.duration :=
  C7_reschedule_roundtrip dbC7 1 100 200 "12:00" 3 (some "conflict") 999 bkC7
    rfl (by decide) (by decide)

/-! ### Fixtures and theorems for claim C6 -/

/-- C6 booking: completed, owned by customer 1 of tenant 1. -/
def bkC6 : Booking :=
  { id := 10, tenant := 1, customer := 1, service := 5, provider := 3
    appointmentDate := 100, startTime := "10:00", endTime := "11:00"
    duration := 60, status := .completed
    pricing := { basePrice := 50, finalPrice := 50, currency := "USD" }
    feedback := none, cancellation := none, reschedule := none }

/-- C6 store. -/
def dbC6 : DB :=
  { tenantAccounts := [{ id := 1, isActive := true }]
    users := [], serviceProviders := [], services := [], bookings := [bkC6] }

/-- Counterexample to C6 as stated: customer 2 of the same tenant submits
feedback on customer 1's completed booking and receives 404 "Booking not
found" — not the Forbidden (403) the claim requires — because the fetch
filters by `customer: req.user._id` and masks the booking entirely. -/
theorem C6_wrong_customer_gets_404_not_403 :
    bkC6.status = BookingStatus.completed ∧ bkC6.customer = 1
      ∧ submitFeedback dbC6 1 2 10 5 none 0
          = (dbC6, Resp.error 404 "Booking not found") :=
  ⟨rfl, rfl, rfl⟩

/-- C6 amended: feedback by anyone other than the booking's own customer
is answered with NotFound (404, existence-masking), not Forbidden; a
booking whose status is not completed (e.g. pending) yields the
InvalidState 400; when the caller is the customer, the status is
completed and the rating is within 1..5, the feedback sub-document is
overwritten unconditionally — prior feedback is not protected. -/
theorem C6_feedback_preconditions :
    (∀ (db : DB) (tid callerId bid rating : Nat) (comment : Option String) (now : Int),
       db.bookings.find? (fun x =>
           x.id == bid && x.customer == callerId && x.tenant == tid) = none →
       submitFeedback db tid callerId bid rating comment now
         = (db, Resp.error 404 "Booking not found"))
    ∧ (∀ (db : DB) (tid callerId bid rating : Nat) (comment : Option String)
         (now : Int) (b : Booking),
       db.bookings.find? (fun x =>
           x.id == bid && x.customer == callerId && x.tenant == tid) = some b →
       b.status ≠ .completed →
       submitFeedback db tid callerId bid rating comment now
         = (db, Resp.error 400 "Can only provide feedback for completed bookings"))
    ∧ (∀ (db : DB) (tid callerId bid rating : Nat) (comment : Option String)
         (now : Int) (b : Booking),
       db.bookings.find? (fun x =>
           x.id == bid && x.customer == callerId && x.tenant == tid) = some b →
       b.status = .completed →
       validBooking b = true →
       1 ≤ rating → rating ≤ 5 →
       maxLen 1000 comment = true →
       submitFeedback db tid callerId bid rating comment now
         = (db.saveBooking { b with feedback := some { rating := rating, comment := comment, submittedAt := now } },
            Resp.ok 200 { b with feedback := some { rating := rating, comment := comment, submittedAt := now } })) := by
  refine ⟨?_, ?_, ?_⟩
  · intro db tid callerId bid rating comment now hfind
    simp only [submitFeedback, hfind]
  · intro db tid callerId bid rating comment now b hfind hst
    simp only [submitFeedback, hfind, hst, if_true, ne_eq, not_false_eq_true]
  · intro db tid callerId bid rating comment now b hfind hst hvb hr1 hr5 hcl
    simp only [validBooking, Bool.and_eq_true] at hvb
    obtain ⟨⟨⟨h1, h2⟩, h3⟩, -⟩ := hvb
    have hvb' : validBooking { b with feedback := some { rating := rating, comment := comment, submittedAt := now } } = true := by
      simp only [validBooking, Bool.and_eq_true]
      exact ⟨⟨⟨h1, h2⟩, h3⟩, ⟨⟨decide_eq_true hr1, decide_eq_true hr5⟩, hcl⟩⟩
    simp only [submitFeedback, hfind]
    rw [if_neg (not_not_intro hst)]
    simp only [hvb', eq_self_iff_true, if_true]

/-- Witness for C6 (amended): the pending-status conjunct (the
InvalidState scenario of the specification) and the overwrite conjunct
for the booking's own customer with a schema-valid comment. -/
theorem C6_feedback_preconditions_witness :
    (submitFeedback { dbC6 with bookings := [{ bkC6 with status := .pending }] } 1 1 10 5 none 0
      = ({ dbC6 with bookings := [{ bkC6 with status := .pending }] },
         Resp.error 400 "Can only provide feedback for completed bookings"))
    ∧ (submitFeedback dbC6 1 1 10 5 (some "great service") 0
      = (dbC6.saveBooking { bkC6 with feedback := some { rating := 5, comment := some "great service", submittedAt := 0 } },
         Resp.ok 200 { bkC6 with feedback := some { rating := 5, comment := some "great service", submittedAt := 0 } })) :=
  ⟨C6_feedback_preconditions.2.1 { dbC6 with bookings := [{ bkC6 with status := .pending }] }
     1 1 10 5 none 0 { bkC6 with status := .pending } rfl (by decide),
   C6_feedback_preconditions.2.2 dbC6 1 1 10 5 (some "great service") 0 bkC6
     rfl rfl (by decide) (by decide) (by decide) (by decide)⟩

/-! ### Theorem for claim C8 -/

/-- The service document createService persists. -/
def newServiceDoc (ut tid : Option Nat) (uid : Nat) (body : ServiceBody)
    (newId : Nat) : Service :=
  { id := newId, tenant := (ut <|> tid).getD uid
    name := body.name, description := body.description
    category := body.category, duration := body.duration
    pricing := body.pricing, providers := [], isActive := true }

/-- C8: through the POST /api/services route, a customer is always
rejected with 403; a tenant with a valid body (route-valid, and within
the service schema's name/description bounds and currency enum) always
gets 201 and the service appended; and no role other than tenant ever
changes the store (the service_provider role passes the route gate but
is rejected by the controller's role check). -/
theorem C8_createService_role_gating :
    (∀ (db : DB) (ut tid : Option Nat) (uid : Nat) (body : ServiceBody) (newId : Nat),
       createServiceRoute db .customer ut tid uid body newId
         = (db, Resp.error 403 "User role is not authorized to access this route"))
    ∧ (∀ (db : DB) (ut tid : Option Nat) (uid : Nat) (body : ServiceBody) (newId : Nat),
       routeValidServiceBody body = true →
       body.name.length ≤ 100 →
       body.description.length ≤ 1000 →
       currencyEnum.contains body.pricing.currency = true →
       createServiceRoute db .tenant ut tid uid body newId
         = ({ db with services := db.services ++ [newServiceDoc ut tid uid body newId] },
            Resp.ok 201 (newServiceDoc ut tid uid body newId)))
    ∧ (∀ (db : DB) (r : Role) (ut tid : Option Nat) (uid : Nat) (body : ServiceBody)
         (newId : Nat),
       r ≠ .tenant → (createServiceRoute db r ut tid uid body newId).1 = db) := by
  refine ⟨fun db ut tid uid body newId => rfl, ?_, ?_⟩
  · intro db ut tid uid body newId hbody hn hd hcur
    have hvs : validService (newServiceDoc ut tid uid body newId) = true := by
      simp only [routeValidServiceBody, Bool.and_eq_true] at hbody
      simp only [validService, newServiceDoc, Bool.and_eq_true]
      exact ⟨⟨⟨⟨⟨⟨decide_eq_true hn, decide_eq_true hd⟩, hbody.1.1.1.2⟩,
        hbody.1.1.2⟩, hbody.1.2⟩, hbody.2⟩, hcur⟩
    rw [createServiceRoute, if_neg (by decide), createService, if_neg (by decide),
      if_neg (not_not_intro hbody)]
    simp only [newServiceDoc] at hvs
    simp only [newServiceDoc, hvs, if_true]
  · intro db r ut tid uid body newId hr
    rw [createServiceRoute]
    split
    · rfl
    · rw [createService]
      split
      · rfl
      · rename_i h
        exact absurd (not_not.mp h) hr

/-- C8 witness body. -/
def bodyC8 : ServiceBody :=
  { name := "massage", description := "relaxing", category := "wellness"
    duration := 45, pricing := { basePrice := 30, currency := "USD", discounts := [] } }

/-- Witness for C8: a tenant-owner with a valid body gets 201. -/
theorem C8_createService_role_gating_witness :
    createServiceRoute dbC4 .tenant none (some 1) 1 bodyC8 7
      = ({ dbC4 with services := dbC4.services ++ [newServiceDoc none (some 1) 1 bodyC8 7] },
         Resp.ok 201 (newServiceDoc none (some 1) 1 bodyC8 7)) :=
  C8_createService_role_gating.2.1 dbC4 none (some 1) 1 bodyC8 7
    (by decide) (by decide) (by decide) (by decide)

/-! ### Theorem for claim C9 -/

/-- C9: the delete handlers soft-delete by clearing isActive, and
deleting an entity that is already inactive (for Tenant and Principal:
every record under that id already inactive; for Service: the id is
unique and its record inactive) succeeds with 200 and leaves the store
unchanged — a no-op, the flag stays false. -/
theorem C9_soft_delete_idempotent :
    (∀ (db : DB) (tid : Nat) (t0 : TenantRec),
       db.tenantAccounts.find? (fun t => t.id == tid) = some t0 →
       (∀ t ∈ db.tenantAccounts, t.id = tid → t.isActive = false) →
       deleteTenant db tid = (db, Resp.ok 200 ()))
    ∧ (∀ (db : DB) (uid : Nat) (u0 : PrincipalRec),
       db.users.find? (fun u => u.id == uid) = some u0 →
       (∀ u ∈ db.users, u.id = uid → u.isActive = some false) →
       deleteUser db uid = (db, Resp.ok 200 ()))
    ∧ (∀ (db : DB) (uid sid : Nat) (s0 : Service),
       db.services.find? (fun s => s.id == sid && s.tenant == uid) = some s0 →
       s0.isActive = false →
       (∀ x ∈ db.services, x.id = s0.id → x = s0) →
       deleteService db .tenant uid sid = (db, Resp.ok 200 ())) := by
  refine ⟨?_, ?_, ?_⟩
  · intro db tid t0 hfind hall
    simp only [deleteTenant, hfind]
    have hmap : db.tenantAccounts.map
        (fun t => if t.id == tid then { t with isActive := false } else t)
        = db.tenantAccounts := by
      apply map_id_of_fixes
      intro x hx
      by_cases hid : x.id = tid
      · have hxa := hall x hx hid
        simp only [hid, beq_self_eq_true, if_true]
        cases x
        simp_all
      · simp [hid]
    rw [hmap]
  · intro db uid u0 hfind hall
    simp only [deleteUser, hfind]
    have hmap : db.users.map
        (fun u => if u.id == uid then { u with isActive := some false } else u)
        = db.users := by
      apply map_id_of_fixes
      intro x hx
      by_cases hid : x.id = uid
      · have hxa := hall x hx hid
        simp only [hid, beq_self_eq_true, if_true]
        cases x
        simp_all
      · simp [hid]
    rw [hmap]
  · intro db uid sid s0 hfind hs0 hall
    have hrec : ({ s0 with isActive := false } : Service) = s0 := by
      cases s0
      simp_all
    rw [deleteService, if_neg (by decide)]
    simp only [hfind, hrec, DB.saveService]
    have hmap : db.services.map (fun x => if x.id == s0.id then s0 else x)
        = db.services := by
      apply map_id_of_fixes
      intro x hx
      by_cases hid : x.id = s0.id
      · simp only [hid, beq_self_eq_true, if_true]
        exact (hall x hx hid).symm
      · simp [hid]
    rw [hmap]

/-- C9 witness store: one already-inactive record per collection. -/
def dbC9 : DB :=
  { tenantAccounts := [{ id := 1, isActive := false }]
    users := [{ id := 9, role := some .customer, tenant := some 1, isActive := some false }]
    serviceProviders := []
    services := [{ id := 5, tenant := 1, name := "cut", description := "x", category := "beauty"
                   duration := 60
                   pricing := { basePrice := 50, currency := "USD", discounts := [] }
                   providers := [], isActive := false }]
    bookings := [] }

/-- Witness for C9: deleting the already-inactive tenant, user and
service all succeed and leave the store untouched. -/
theorem C9_soft_delete_idempotent_witness :
    deleteTenant dbC9 1 = (dbC9, Resp.ok 200 ())
      ∧ deleteUser dbC9 9 = (dbC9, Resp.ok 200 ())
      ∧ deleteService dbC9 .tenant 1 5 = (dbC9, Resp.ok 200 ()) :=
  ⟨C9_soft_delete_idempotent.1 dbC9 1 { id := 1, isActive := false } rfl
      (by intro t ht hid; simp [dbC9] at ht; simp [ht]),
   C9_soft_delete_idempotent.2.1 dbC9 9
      { id := 9, role := some .customer, tenant := some 1, isActive := some false } rfl
      (by intro u hu hid; simp [dbC9] at hu; simp [hu]),
   C9_soft_delete_idempotent.2.2 dbC9 1 5
      { id := 5, tenant := 1, name := "cut", description := "x", category := "beauty"
        duration := 60
        pricing := { basePrice := 50, currency := "USD", discounts := [] }
        providers := [], isActive := false } rfl rfl
      (by intro x hx hid; simp [dbC9] at hx; simp [hx])⟩

/-! ### Theorem for claim C3 -/

/-- C3: because the three principal stores are disjoint, the source's
User → ServiceProvider → Tenant fallback chain returns the same first
match as the specification's tenant-owner → service-provider →
generic-user order; the resolver 401s when no store matches, when the
resolved principal's isActive is explicitly false, and, for a non-admin
non-tenant principal, when the owning tenant is inactive. -/
theorem C3_identity_resolution :
    (∀ (db : DB) (i : Nat),
       ¬((findById db.users i).isSome
           ∧ (findById db.serviceProviders i).isSome) →
       ¬((findById db.users i).isSome
           ∧ (db.tenantAccounts.find? (fun t => t.id == i)).isSome) →
       ¬((findById db.serviceProviders i).isSome
           ∧ (db.tenantAccounts.find? (fun t => t.id == i)).isSome) →
       lookupPrincipalSpecOrder db i = lookupPrincipal db i)
    ∧ (∀ (db : DB) (i : Nat),
       lookupPrincipal db i = none →
       protect db i = .err401 "No user found with this token")
    ∧ (∀ (db : DB) (i : Nat) (u : PrincipalRec),
       lookupPrincipal db i = some u →
       u.isActive = some false →
       protect db i = .err401 "User account is deactivated")
    ∧ (∀ (db : DB) (i : Nat) (u : PrincipalRec) (r : Role) (tid : Nat) (t : TenantRec),
       lookupPrincipal db i = some u →
       u.isActive ≠ some false →
       u.role = some r → r ≠ .admin → r ≠ .tenant →
       u.tenant = some tid →
       db.tenantAccounts.find? (fun x => x.id == tid) = some t →
       t.isActive = false →
       protect db i = .err401 "Tenant account is inactive") := by
  refine ⟨?_, ?_, ?_, ?_⟩
  · intro db i h12 h13 h23
    cases hu : findById db.users i <;>
      cases hp : findById db.serviceProviders i <;>
        cases ht : db.tenantAccounts.find? (fun t => t.id == i) <;>
          first
            | (simp only [lookupPrincipal, lookupPrincipalSpecOrder, hu, hp, ht,
                 Option.map_none', Option.map_some']
               done)
            | (exfalso
               revert h12 h13 h23
               simp [hu, hp, ht])
  · intro db i h
    simp only [protect, h]
  · intro db i u hu hact
    simp only [protect, hu, hact, eq_self_iff_true, if_true]
  · intro db i u r tid t hu hact hrole hadm htenant htid hfindt hinact
    have hradm : u.role ≠ some Role.admin := by
      rw [hrole]
      intro hc
      exact hadm (Option.some.inj hc)
    simp only [protect, hu]
    rw [if_neg hact, htid]
    simp only [Option.some_bind', hfindt]
    rw [if_pos ⟨hradm, hinact⟩]

/-- C3 witness store: one principal of each kind under distinct ids,
plus a customer attached to an inactive tenant. -/
def dbC3 : DB :=
  { tenantAccounts := [{ id := 1, isActive := true }, { id := 4, isActive := false }]
    users := [{ id := 9, role := some .customer, tenant := some 1, isActive := some true },
              { id := 8, role := some .customer, tenant := some 4, isActive := some true },
              { id := 7, role := some .customer, tenant := some 1, isActive := some false }]
    serviceProviders := [{ id := 3, role := some .service_provider, tenant := some 1, isActive := some true }]
    services := [], bookings := [] }

/-- Witness for C3: order-equivalence at id 3, 401 on a miss, 401 for an
explicitly deactivated principal, 401 for a principal of an inactive
tenant. -/
theorem C3_identity_resolution_witness :
    lookupPrincipalSpecOrder dbC3 3 = lookupPrincipal dbC3 3
      ∧ protect dbC3 99 = .err401 "No user found with this token"
      ∧ protect dbC3 7 = .err401 "User account is deactivated"
      ∧ protect dbC3 8 = .err401 "Tenant account is inactive" :=
  ⟨C3_identity_resolution.1 dbC3 3 (by decide) (by decide) (by decide),
   C3_identity_resolution.2.1 dbC3 99 rfl,
   C3_identity_resolution.2.2.1 dbC3 7
     { id := 7, role := some .customer, tenant := some 1, isActive := some false } rfl rfl,
   C3_identity_resolution.2.2.2 dbC3 8
     { id := 8, role := some .customer, tenant := some 4, isActive := some true }
     .customer 4 { id := 4, isActive := false } rfl (by decide) rfl (by decide)
     (by decide) rfl rfl rfl⟩

end AMS
